import Mathlib

/-!
# Shallow embedding of the `pubsub` broadcast engine

This file embeds the fullest variant of the Go `pubsub` package (the one
providing `ErrClosed`, `SubscriberCount` and the `ChannelCapacity` option)
as pure Lean definitions, and proves the specified contracts about them.

Modelling conventions:
* A Go channel value is modelled by its reference identity (a `Nat`) together
  with the buffer capacity it was allocated with; the source compares channels
  only by identity (`sub.ev == c`).
* The nil slice is modelled as `none` and a non-nil slice as `some l`; the
  source distinguishes them (`Close` early-returns exactly when
  `p.subs == nil`, while `len` and `range` treat nil as empty).
* The deregistration channel `unsubs` is modelled as `none` when not yet
  allocated and `some q` when allocated with pending queue `q`.
* Blocking sends and concurrent interleavings are serialised: every mutation
  of engine or subscriber state happens under the corresponding mutex in the
  source, so the lock-serialised sequential semantics is the one embedded.
* A runtime panic (Go `make` with a negative capacity panics) is modelled by
  propagating `none` through `Option`.
-/

namespace PubSub

/-- A Go channel value: `id` models reference identity (the source compares
delivery channels with `sub.ev == c`), `cap` the capacity handed to `make`.
Go's `make` takes an `int`, hence `cap : Int`. -/
structure Chan where
  id : Nat
  cap : Int
deriving DecidableEq

/-- The `subscriber[T]` struct: delivery channel `ev`, the handler callback
(modelled by a numeric identity, since the engine itself never invokes it —
only the delivery worker does, which `listenRun` models), and the local
`closed` flag guarded by `s.mu`. The bound deregistration closure `c` is
modelled by `closerStep`. -/
structure Subscriber where
  ev : Chan
  handlerId : Nat
  closed : Bool
deriving DecidableEq

/-- The `publisher[T]` struct: the live slice `subs` (`none` is Go's nil
slice), the deregistration channel `unsubs` with its pending queue, whether
that channel has been closed, the `closed` flag, and a counter supplying
fresh channel identities for `make`. -/
structure Publisher where
  subs : Option (List Subscriber)
  unsubs : Option (List Nat)
  unsubsClosed : Bool
  closed : Bool
  nextId : Nat
deriving DecidableEq

/-- Result of `Publish`: `ok` is a nil error, `errClosed` the distinguished
`ErrClosed` value. -/
inductive PubResult where
  | ok
  | errClosed
deriving DecidableEq

/-- Iterating / measuring a Go slice: `range` and `len` treat the nil slice
as empty. -/
def subsList : Option (List Subscriber) → List Subscriber
  | none => []
  | some l => l

/-- `New` returns `&publisher[T]{}`: every field at its zero value. -/
def new : Publisher :=
  { subs := none, unsubs := none, unsubsClosed := false, closed := false, nextId := 0 }

/-- `listening` reports whether the deregistration channel is allocated
(`p.unsubs != nil`). -/
def listening (p : Publisher) : Bool := p.unsubs.isSome

/-- `make(chan T, n)`: allocates a fresh channel identity with capacity `n`;
Go panics when `n` is negative, modelled by `none`. -/
def mkChan (k : Nat) (n : Int) : Option (Chan × Nat) :=
  if n < 0 then none else some ({ id := k, cap := n }, k + 1)

/-- `subscribeOpt[T]`, a function mutating the subscriber under construction.
It may allocate a channel, so it threads the fresh-identity counter and may
panic (`none`). -/
def SubscribeOpt : Type := Subscriber → Nat → Option (Subscriber × Nat)

/-- `ChannelCapacity(n)`: replaces the delivery channel by `make(chan T, n)`. -/
def channelCapacity (n : Int) : SubscribeOpt :=
  fun s k => (mkChan k n).map (fun r => ({ s with ev := r.1 }, r.2))

/-- `for _, opt := range opts { opt(&s) }`. -/
def applyOpts : List SubscribeOpt → Subscriber → Nat → Option (Subscriber × Nat)
  | [], s, k => some (s, k)
  | o :: rest, s, k =>
    match o s k with
    | none => none
    | some (s', k') => applyOpts rest s' k'

/-- `Subscribe(handler, opts...)`: allocates an unbuffered delivery channel,
applies the options, lazily allocates the deregistration channel (starting
the deregistration loop), binds the closer (modelled by `closerStep`),
starts the delivery worker (modelled by `listenRun`), and appends the new
subscriber to the live slice under the engine lock. `none` models a panic
raised while an option allocates its channel. -/
def subscribe (p : Publisher) (handlerId : Nat) (opts : List SubscribeOpt) :
    Option (Publisher × Subscriber) :=
  match mkChan p.nextId 0 with
  | none => none
  | some (ev, k1) =>
    let s0 : Subscriber := { ev := ev, handlerId := handlerId, closed := false }
    match applyOpts opts s0 k1 with
    | none => none
    | some (s, k2) =>
      let p1 := if listening p then p
                else { p with unsubs := some [], unsubsClosed := false }
      some ({ p1 with nextId := k2, subs := some (subsList p1.subs ++ [s]) }, s)

/-- The deregistration closure bound by `Subscribe`: under `s.mu`, if the
subscriber is already closed it returns; otherwise it marks it closed and
sends the delivery-channel identity on the deregistration channel (queue). -/
def closerStep (s : Subscriber) (q : List Nat) : Subscriber × List Nat :=
  if s.closed then (s, q)
  else ({ s with closed := true }, q ++ [s.ev.id])

/-- The scan inside the deregistration loop: removes the first subscriber
whose delivery-channel identity equals `c` (the `break` stops after the
first hit), leaving the slice unchanged when none matches. -/
def removeFirst : List Subscriber → Nat → List Subscriber
  | [], _ => []
  | s :: rest, c => if s.ev.id = c then rest else s :: removeFirst rest c

/-- One iteration of the deregistration loop `listen`: consume the next
identity from the deregistration channel and, under the engine lock, remove
the first matching subscriber from the live slice. -/
def deregStep (p : Publisher) : Publisher :=
  match p.unsubs with
  | some (c :: q) =>
    { p with unsubs := some q, subs := p.subs.map (fun l => removeFirst l c) }
  | _ => p

/-- `Close`: under the engine lock, return immediately when the live slice
is nil; otherwise run every subscriber's deregistration closure, nil the
slice, close the deregistration channel if allocated (its queued identities
stay for the loop to drain), and set the closed flag. -/
def close (p : Publisher) : Publisher :=
  match p.subs with
  | none => p
  | some l =>
    let q := l.foldl (fun (acc : List Nat) s => (closerStep s acc).2) (p.unsubs.getD [])
    { p with subs := none,
             unsubs := if p.unsubs.isSome then some q else p.unsubs,
             unsubsClosed := p.unsubsClosed || p.unsubs.isSome,
             closed := true }

/-- `Publish(v)`: when the closed flag is set return `ErrClosed` with no
sends attempted; otherwise, under the engine lock, send `v` to every live
subscriber's delivery channel and return nil. The second component is the
sequence of channel sends performed, as (channel identity, value) pairs. -/
def publish {T : Type} (p : Publisher) (v : T) : PubResult × List (Nat × T) :=
  if p.closed then (.errClosed, [])
  else (.ok, (subsList p.subs).map (fun s => (s.ev.id, v)))

/-- `SubscriberCount`: `len(p.subs)` under the engine lock. -/
def subscriberCount (p : Publisher) : Nat := (subsList p.subs).length

/-- An observable event on a subscriber's delivery channel, as seen by its
delivery worker: a value received, or end-of-stream (channel closed). -/
inductive ChanEvent (T : Type) where
  | recv (v : T)
  | closeCh

/-- The delivery worker `listen`: `for e := range s.ev { s.handler(e) }`.
Given the trace of channel events the worker observes, returns the
arguments passed to the handler, in order, and whether the loop terminated
(which happens exactly at end-of-stream). -/
def listenRun {T : Type} : List (ChanEvent T) → List T × Bool
  | [] => ([], false)
  | .recv v :: rest =>
    let r := listenRun rest
    (v :: r.1, r.2)
  | .closeCh :: _ => ([], true)

/-- Whether a channel event is a value delivery. -/
def isRecvEv {T : Type} : ChanEvent T → Bool
  | .recv _ => true
  | .closeCh => false

/-- The value carried by a delivery event, if any. -/
def recvVal? {T : Type} : ChanEvent T → Option T
  | .recv v => some v
  | .closeCh => none

/-- Go channel-send readiness in the absence of a ready receiver: a send on
a channel of capacity `cap` blocks exactly when the buffer already holds
`cap` values (so an unbuffered channel always blocks until a receiver is
ready). -/
def chanSendBlocks (cap : Int) (buffered : Nat) : Bool :=
  !((buffered : Int) < cap)

/-- Spec-side description of the deregistration scan: the index of the first
live-set entry whose delivery-channel identity matches the request. -/
def firstMatchIdx (c : Nat) : List Subscriber → Option Nat
  | [] => none
  | s :: rest => if s.ev.id = c then some 0 else (firstMatchIdx c rest).map (· + 1)

/-- Engine-facing operations available after `Close` (excluding `Subscribe`):
publishing, a subscription closer firing (which only enqueues its channel
identity), one deregistration-loop iteration, and `Close` itself. -/
inductive PostOp (T : Type) where
  | pub (v : T)
  | unsub (c : Nat)
  | dereg
  | closeOp

/-- Effect of a `PostOp` on the engine state: `Publish` never mutates the
engine, a closer enqueues on the deregistration channel when allocated,
`dereg` is `deregStep`, and `closeOp` is `close`. -/
def applyOp {T : Type} (p : Publisher) : PostOp T → Publisher
  | .pub _ => p
  | .unsub c => { p with unsubs := p.unsubs.map (fun q => q ++ [c]) }
  | .dereg => deregStep p
  | .closeOp => close p

/-- The subscriber produced by `subscribe new 0 []`. -/
def subS : Subscriber := { ev := { id := 0, cap := 0 }, handlerId := 0, closed := false }

/-- The publisher state after `subscribe new 0 []`. -/
def subP : Publisher :=
  { subs := some [subS], unsubs := some [], unsubsClosed := false, closed := false,
    nextId := 1 }

/-- A closed publisher with no subscribers. -/
def closedP : Publisher := { new with closed := true }

/-- Claim C1: for every engine state, `Publish(value)` returns the
distinguished closed-publisher error exactly when the closed flag is set;
in that case no channel send is attempted, and otherwise it returns nil
having performed a send of the value to every live subscription's delivery
channel. -/
theorem publish_errClosed_iff {T : Type} (p : Publisher) (v : T) :
    ((publish p v).1 = .errClosed ↔ p.closed = true) ∧
    (p.closed = true → (publish p v).2 = []) ∧
    (p.closed = false →
      (publish p v).1 = .ok ∧
      ∀ s ∈ subsList p.subs, (s.ev.id, v) ∈ (publish p v).2) := by
  cases hc : p.closed with
  | true => simp [publish, hc]
  | false =>
    refine ⟨by simp [publish, hc], by simp [hc], fun _ => ⟨by simp [publish, hc], ?_⟩⟩
    intro s hs
    simp only [publish, hc, if_neg Bool.false_ne_true, List.mem_map]
    exact ⟨s, hs, rfl⟩

/-- Witness for C1 at a concrete closed engine. -/
theorem publish_errClosed_iff_witness :
    (publish closedP (5 : Nat)).1 = .errClosed ∧ (publish closedP (5 : Nat)).2 = [] := by
  have h := @publish_errClosed_iff Nat closedP 5
  exact ⟨h.1.mpr rfl, h.2.1 rfl⟩

/-- Claim C2 counterexample: on an engine never subscribed to, `Close`
early-returns (nil subscriber slice) without setting the closed flag, so a
subsequent `Publish` still succeeds instead of failing with the
closed-publisher error. -/
theorem close_fresh_publish_ok :
    subscriberCount (close new) = 0 ∧ (publish (close new) (0 : Nat)).1 ≠ .errClosed := by
  decide

/-- Claim C2 amended: after `Close`, `SubscriberCount` is always 0; and every
subsequent `Publish` fails with the closed-publisher error provided the
engine's subscriber slice was non-nil (`Subscribe` had been called since
construction) or the engine was already closed — on a never-subscribed
engine `Close` is a no-op and `Publish` keeps succeeding. -/
theorem close_count_publish {T : Type} (p : Publisher) (v : T) :
    subscriberCount (close p) = 0 ∧
    (p.subs ≠ none → (publish (close p) v).1 = .errClosed) ∧
    (p.closed = true → (publish (close p) v).1 = .errClosed) := by
  cases hp : p.subs with
  | none =>
    refine ⟨by simp [close, hp, subscriberCount, subsList],
      fun hne => absurd rfl hne, fun hc => ?_⟩
    simp [close, hp, publish, hc]
  | some l =>
    refine ⟨by simp [close, hp, subscriberCount, subsList], fun _ => ?_, fun _ => ?_⟩ <;>
      simp [close, hp, publish]

/-- Witness for C2's amended statement at a concrete once-subscribed engine. -/
theorem close_count_publish_witness :
    subscriberCount (close subP) = 0 ∧ (publish (close subP) (0 : Nat)).1 = .errClosed := by
  have h := @close_count_publish Nat subP 0
  exact ⟨h.1, h.2.1 (by decide)⟩

/-- Claim C3 counterexample: `Subscribe` after `Close` registers a new
subscription, so a closed engine's `SubscriberCount` becomes nonzero. -/
theorem subscribe_after_close_nonzero :
    (close subP).closed = true ∧
    ((subscribe (close subP) 1 []).map (fun r => subscriberCount r.1)).getD 0 = 1 := by
  decide

/-- Helper: every post-close operation other than `Subscribe` preserves the
closed flag and the nil live slice. -/
theorem applyOp_preserves_closed_none {T : Type} (p : Publisher) (op : PostOp T)
    (hc : p.closed = true) (hs : p.subs = none) :
    (applyOp p op).closed = true ∧ (applyOp p op).subs = none := by
  cases op with
  | pub v => exact ⟨hc, hs⟩
  | unsub c => exact ⟨hc, hs⟩
  | dereg =>
    show (deregStep p).closed = true ∧ (deregStep p).subs = none
    cases hu : p.unsubs with
    | none => simp [deregStep, hu, hc, hs]
    | some q =>
      cases q with
      | nil => simp [deregStep, hu, hc, hs]
      | cons c rest => simp [deregStep, hu, hc, hs]
  | closeOp =>
    show (close p).closed = true ∧ (close p).subs = none
    simp [close, hs, hc]

/-- Helper: a sequence of post-close operations preserves the closed flag
and the nil live slice. -/
theorem foldl_preserves_closed_none {T : Type} (ops : List (PostOp T)) :
    ∀ p : Publisher, p.closed = true → p.subs = none →
      (ops.foldl applyOp p).closed = true ∧ (ops.foldl applyOp p).subs = none := by
  induction ops with
  | nil => exact fun p hc hs => ⟨hc, hs⟩
  | cons op rest ih =>
    intro p hc hs
    have h := applyOp_preserves_closed_none p op hc hs
    exact ih (applyOp p op) h.1 h.2

/-- Claim C3 amended: once the engine is closed with a nil live slice (the
state `Close` leaves behind), every sequence of `Publish`, closer firings,
deregistration iterations and further `Close` calls keeps it closed with an
empty live set, `SubscriberCount` 0 and `Publish` failing closed —
`Subscribe`, however, breaks this (see the counterexample). -/
theorem closed_state_invariant (p : Publisher) (hc : p.closed = true)
    (hs : p.subs = none) (ops : List (PostOp Nat)) :
    (ops.foldl applyOp p).closed = true ∧ (ops.foldl applyOp p).subs = none ∧
    subscriberCount (ops.foldl applyOp p) = 0 ∧
    ∀ v : Nat, (publish (ops.foldl applyOp p) v).1 = .errClosed := by
  obtain ⟨h1, h2⟩ := foldl_preserves_closed_none ops p hc hs
  exact ⟨h1, h2, by simp [subscriberCount, h2, subsList],
    fun v => by simp [publish, h1]⟩

/-- Witness for C3's amended statement on a concrete closed engine and a
concrete operation sequence. -/
theorem closed_state_invariant_witness :
    subscriberCount
      (List.foldl applyOp (close subP)
        [PostOp.pub 3, PostOp.unsub 0, PostOp.dereg, PostOp.closeOp]) = 0 ∧
    (publish
      (List.foldl applyOp (close subP)
        [PostOp.pub 3, PostOp.unsub 0, PostOp.dereg, PostOp.closeOp]) (9 : Nat)).1
      = .errClosed := by
  have h := closed_state_invariant (close subP) (by decide) (by decide)
    [PostOp.pub 3, PostOp.unsub 0, PostOp.dereg, PostOp.closeOp]
  exact ⟨h.2.2.1, h.2.2.2 9⟩

/-- Helper: when some entry matches, the deregistration scan removes exactly
one entry. -/
theorem removeFirst_length_of_mem (l : List Subscriber) (c : Nat)
    (h : ∃ t ∈ l, t.ev.id = c) : (removeFirst l c).length + 1 = l.length := by
  induction l with
  | nil =>
    rcases h with ⟨t, ht, _⟩
    cases ht
  | cons s rest ih =>
    by_cases hsc : s.ev.id = c
    · simp [removeFirst, hsc]
    · rcases h with ⟨t, ht, htc⟩
      rcases List.mem_cons.mp ht with rfl | htr
      · exact absurd htc hsc
      · have := ih ⟨t, htr, htc⟩
        simp only [removeFirst, if_neg hsc, List.length_cons]
        omega

/-- Claim C4: the deregistration closure fires at most once — a second run
is a no-op, the deregistration queue gains exactly one entry (the
subscription's channel identity), and processing it removes exactly one
matching subscription, so the count drops by one, not two. -/
theorem unsubscribe_at_most_once (s : Subscriber) (q : List Nat)
    (l : List Subscriber) (hs : s.closed = false)
    (hl : ∃ t ∈ l, t.ev.id = s.ev.id) :
    closerStep (closerStep s q).1 (closerStep s q).2 = closerStep s q ∧
    (closerStep s q).2 = q ++ [s.ev.id] ∧
    (removeFirst l s.ev.id).length + 1 = l.length := by
  have h1 : closerStep s q = ({ s with closed := true }, q ++ [s.ev.id]) := by
    simp [closerStep, hs]
  refine ⟨?_, by rw [h1], removeFirst_length_of_mem l s.ev.id hl⟩
  rw [h1]
  simp [closerStep]

/-- Witness for C4 at a concrete fresh subscription. -/
theorem unsubscribe_at_most_once_witness :
    (closerStep subS []).2 = [0] ∧ (removeFirst [subS] 0).length + 1 = 1 := by
  have h := unsubscribe_at_most_once subS [] [subS] rfl ⟨subS, by simp, rfl⟩
  exact ⟨h.2.1.trans (by decide), h.2.2⟩

/-- Claim C5: `Close` is idempotent — the second call is a no-op, the result
of two calls equals the result of one, and the subscriber count is 0 after
closing. -/
theorem close_idempotent (p : Publisher) :
    close (close p) = close p ∧ subscriberCount (close p) = 0 := by
  cases hp : p.subs <;> simp [close, hp, subscriberCount, subsList]

/-- Helper: the deregistration scan equals dropping the first matching index
and keeping everything else. -/
theorem removeFirst_eq_firstMatchIdx (c : Nat) (l : List Subscriber) :
    removeFirst l c =
      (match firstMatchIdx c l with
       | some i => l.take i ++ l.drop (i + 1)
       | none => l) := by
  induction l with
  | nil => rfl
  | cons s rest ih =>
    by_cases h : s.ev.id = c
    · simp [removeFirst, firstMatchIdx, h]
    · simp only [removeFirst, firstMatchIdx, if_neg h, ih]
      cases hfi : firstMatchIdx c rest with
      | none => simp
      | some i => simp [List.take_succ_cons, List.drop_succ_cons]

/-- Claim C7: one deregistration-loop iteration removes exactly the first
subscriber whose delivery-channel identity matches the consumed request and
leaves every other entry in place; when no entry matches, the live set is
unchanged. -/
theorem dereg_removes_first_only (p : Publisher) (c : Nat) (q : List Nat)
    (l : List Subscriber) (hu : p.unsubs = some (c :: q)) (hs : p.subs = some l) :
    (deregStep p).subs = some (removeFirst l c) ∧
    removeFirst l c =
      (match firstMatchIdx c l with
       | some i => l.take i ++ l.drop (i + 1)
       | none => l) :=
  ⟨by simp [deregStep, hu, hs], removeFirst_eq_firstMatchIdx c l⟩

/-- Witness for C7 on a one-element live set with a matching request. -/
theorem dereg_removes_first_only_witness :
    (deregStep { subP with unsubs := some [0] }).subs = some [] := by
  have h := dereg_removes_first_only { subP with unsubs := some [0] } 0 [] [subS]
    rfl rfl
  exact h.1.trans (by decide)

/-- Helper: a successful `Subscribe` leaves the live slice equal to the old
one with the returned subscriber appended, and does not touch the closed
flag. -/
theorem subscribe_some_shape (p : Publisher) (h : Nat) (opts : List SubscribeOpt)
    (p' : Publisher) (s : Subscriber)
    (hsub : subscribe p h opts = some (p', s)) :
    p'.subs = some (subsList p.subs ++ [s]) ∧ p'.closed = p.closed := by
  unfold subscribe at hsub
  simp only [show mkChan p.nextId 0 = some ({ id := p.nextId, cap := 0 }, p.nextId + 1)
    from by simp [mkChan]] at hsub
  cases happ : applyOpts opts
      { ev := { id := p.nextId, cap := 0 }, handlerId := h, closed := false }
      (p.nextId + 1) with
  | none => simp [happ] at hsub
  | some sk =>
    obtain ⟨s1, k2⟩ := sk
    simp only [happ, Option.some.injEq, Prod.mk.injEq] at hsub
    obtain ⟨rfl, rfl⟩ := hsub
    cases hl : listening p <;> simp [hl]

/-- Claim C6: on an open engine, immediately after `Subscribe` returns the
new subscription is counted (the count is one greater than before), it is
in the live set, the engine is still open, and every `Publish` on an open
state whose live set contains it succeeds and sends the value to its
delivery channel. -/
theorem subscribe_registers (p p' : Publisher) (h : Nat)
    (opts : List SubscribeOpt) (s : Subscriber) (hp : p.closed = false)
    (hsub : subscribe p h opts = some (p', s)) :
    subscriberCount p' = subscriberCount p + 1 ∧
    s ∈ subsList p'.subs ∧ p'.closed = false ∧
    ∀ (T : Type) (v : T) (q : Publisher), q.closed = false → s ∈ subsList q.subs →
      (publish q v).1 = .ok ∧ (s.ev.id, v) ∈ (publish q v).2 := by
  obtain ⟨h1, h2⟩ := subscribe_some_shape p h opts p' s hsub
  refine ⟨by simp [subscriberCount, h1, subsList], by simp [h1, subsList],
    h2.trans hp, fun T v q hq hqs => ⟨by simp [publish, hq], ?_⟩⟩
  simp only [publish, hq, if_neg Bool.false_ne_true, List.mem_map]
  exact ⟨s, hqs, rfl⟩

/-- Witness for C6 at `subscribe new 0 []`. -/
theorem subscribe_registers_witness :
    subscriberCount subP = 1 ∧ subS ∈ subsList subP.subs ∧
    (subS.ev.id, (7 : Nat)) ∈ (publish subP (7 : Nat)).2 := by
  have h := subscribe_registers new subP 0 [] subS rfl (by decide)
  exact ⟨h.1.trans (by decide), h.2.1,
    (h.2.2.2 Nat 7 subP rfl h.2.1).2⟩

/-- Claim C8: the `ChannelCapacity(n)` option (for non-negative `n`) makes
`Subscribe` allocate the delivery channel with capacity `n`, which accepts a
send without blocking exactly while fewer than `n` values are buffered; with
no option the capacity defaults to 0, a synchronous handoff on which every
send blocks until the worker is ready to receive. -/
theorem channelCapacity_buffering (p : Publisher) (h : Nat) (n : Int)
    (hn : 0 ≤ n) :
    ((subscribe p h [channelCapacity n]).map (fun r => r.2.ev.cap)) = some n ∧
    ((subscribe p h []).map (fun r => r.2.ev.cap)) = some 0 ∧
    (∀ buffered : Nat, chanSendBlocks n buffered = false ↔ (buffered : Int) < n) ∧
    (∀ buffered : Nat, chanSendBlocks 0 buffered = true) := by
  have hnn : ¬ n < 0 := not_lt.mpr hn
  refine ⟨?_, ?_, fun buffered => by simp [chanSendBlocks],
    fun buffered => by simp [chanSendBlocks]⟩
  · cases hl : listening p <;>
      simp [subscribe, mkChan, applyOpts, channelCapacity, hnn, hl,
        show ¬((0 : Int) < 0) from by decide]
  · cases hl : listening p <;>
      simp [subscribe, mkChan, applyOpts, hl, show ¬((0 : Int) < 0) from by decide]

/-- Witness for C8 at capacity 3. -/
theorem channelCapacity_buffering_witness :
    ((subscribe new 0 [channelCapacity 3]).map (fun r => r.2.ev.cap)) = some 3 ∧
    chanSendBlocks 3 2 = false ∧ chanSendBlocks 0 0 = true := by
  have h := channelCapacity_buffering new 0 3 (by decide)
  exact ⟨h.1, (h.2.2.1 2).mpr (by decide), h.2.2.2 0⟩

/-- Claim C9: the delivery worker invokes the handler once per value, in the
order received, and its loop terminates exactly when the channel is closed,
having handled every value received before closure. -/
theorem worker_delivers_in_order {T : Type} (evs : List (ChanEvent T)) :
    listenRun evs =
      ((evs.takeWhile isRecvEv).filterMap recvVal?, evs.any (fun e => !isRecvEv e)) := by
  induction evs with
  | nil => rfl
  | cons e rest ih =>
    cases e with
    | recv v => simp [listenRun, ih, List.takeWhile_cons, isRecvEv, recvVal?]
    | closeCh => simp [listenRun, List.takeWhile_cons, isRecvEv]

/-- Claim C10: `ChannelCapacity` performs no validation — with a negative
argument, `Subscribe` panics while allocating the delivery channel
(`make(chan T, n)` with negative `n`), modelled by a `none` outcome: no
error return and no fallback to the default capacity occurs. -/
theorem channelCapacity_negative_panics (p : Publisher) (h : Nat) (n : Int)
    (hn : n < 0) : subscribe p h [channelCapacity n] = none := by
  simp [subscribe, mkChan, applyOpts, channelCapacity, hn]

/-- Witness for C10 at capacity `-1`. -/
theorem channelCapacity_negative_panics_witness :
    subscribe new 0 [channelCapacity (-1)] = none :=
  channelCapacity_negative_panics new 0 (-1) (by decide)

end PubSub
